import Mathlib

/-!
Shallow embedding of the visualize-it frontend core:
the Plotly candidate validation/repair pipeline
(`isValidPlotlyData`, `sanitizePlotlyData`, `getPlotlyLayout` and the
rendering dispatch in `VisualizationDisplay.js`), the app-level state
updates (`handleEditorUpdate`, the retry event wiring in `App.js`),
the client log queue (`LoggingService.js`) and the model list fetch
(`ModelSelector.js`).

JavaScript values are modelled by the inductive `Val`; objects are
ordered association lists of string keys (insertion order), property
access returns `Val.vUndef` when the key is absent, and spread-merge
`\x7b...a, ...b\x7d` is `mergeSpread`.
-/

/-- A JavaScript value: undefined, null, boolean, number (integral
numbers suffice for the data the claims mention), string, array or
object (ordered fields). -/
inductive Val where
  | vUndef : Val
  | vNull : Val
  | vBool : Bool → Val
  | vNum : Int → Val
  | vStr : String → Val
  | vArr : List Val → Val
  | vObj : List (String × Val) → Val

/-- JavaScript truthiness: `undefined`, `null`, `false`, `0` and `""`
are falsy; every array and object is truthy. -/
def truthy : Val → Bool
  | Val.vUndef => false
  | Val.vNull => false
  | Val.vBool b => b
  | Val.vNum n => decide (n ≠ 0)
  | Val.vStr s => !s.isEmpty
  | Val.vArr _ => true
  | Val.vObj _ => true

/-- `Array.isArray`. -/
def isArr : Val → Bool
  | Val.vArr _ => true
  | _ => false

/-- First-match lookup in an ordered field list; absent keys give
`Val.vUndef`, like JavaScript property access. -/
def getFl : List (String × Val) → String → Val
  | [], _ => Val.vUndef
  | p :: rest, k => if p.1 = k then p.2 else getFl rest k

/-- Property assignment on an ordered field list: an existing key keeps
its position and gets the new value, a new key is appended (JavaScript
object insertion-order semantics). -/
def setFl : List (String × Val) → String → Val → List (String × Val)
  | [], k, v => [(k, v)]
  | p :: rest, k, v => if p.1 = k then (p.1, v) :: rest else p :: setFl rest k v

/-- Whether a field list has an entry with the given key. -/
def containsKey (f : List (String × Val)) (k : String) : Bool :=
  f.any (fun p => decide (p.1 = k))

/-- The own enumerable fields of a value, as used by object spread
`\x7b...v\x7d`: objects give their fields, arrays and strings give index
properties, primitives give nothing. -/
def toFields : Val → List (String × Val)
  | Val.vObj f => f
  | Val.vArr xs => xs.enum.map (fun p => (toString p.1, p.2))
  | Val.vStr s => s.toList.enum.map (fun p => (toString p.1, Val.vStr (String.singleton p.2)))
  | _ => []

/-- JavaScript property access `v.k`. -/
def getF (v : Val) (k : String) : Val :=
  getFl (toFields v) k

/-- Object spread-merge `\x7b...a, ...b\x7d`: keys of `a` keep their
order, values overridden by `b` where `b` also has the key; keys only in
`b` are appended in `b`'s order. -/
def mergeSpread (a b : List (String × Val)) : List (String × Val) :=
  a.map (fun p => (p.1, if containsKey b p.1 then getFl b p.1 else p.2)) ++
    b.filter (fun p => !containsKey a p.1)

/-! ## VisualizationDisplay.js : validation -/

/-- One trace of `isValidPlotlyData` (the `for` body, lines 31–56):
a trace without a truthy `type` is invalid; `bar`/`scatter` require
`x` and `y` to be arrays; `pie` requires `values` and `labels` to be
arrays; every other `type` is accepted. -/
def validTrace (t : Val) : Bool :=
  if !truthy (getF t "type") then false
  else
    match getF t "type" with
    | Val.vStr "bar" => isArr (getF t "x") && isArr (getF t "y")
    | Val.vStr "scatter" => isArr (getF t "x") && isArr (getF t "y")
    | Val.vStr "pie" => isArr (getF t "values") && isArr (getF t "labels")
    | _ => true

/-- `isValidPlotlyData` (lines 14–59): falsy data, non-array data and
the empty array are invalid; otherwise every trace must pass
`validTrace`. -/
def isValidPlotlyData (data : Val) : Bool :=
  if !truthy data then false
  else
    match data with
    | Val.vArr xs => !xs.isEmpty && xs.all validTrace
    | _ => false

/-! ## VisualizationDisplay.js : layout defaults -/

/-- The `margin` object of the default layout. -/
def marginDefault : Val :=
  Val.vObj [("l", Val.vNum 50), ("r", Val.vNum 50), ("b", Val.vNum 50),
            ("t", Val.vNum 50), ("pad", Val.vNum 4)]

/-- The `defaultLayout` built in `getPlotlyLayout` (lines 64–68). -/
def defaultLayout (visualization : Val) : List (String × Val) :=
  [("title", if truthy (getF visualization "title")
             then getF visualization "title" else Val.vStr "Visualization"),
   ("autosize", Val.vBool true),
   ("margin", marginDefault)]

/-- `getPlotlyLayout` (lines 62–76): when `plotlyLayout` is truthy the
result is `\x7b...defaultLayout, ...visualization.plotlyLayout\x7d`,
otherwise the default layout alone. -/
def getPlotlyLayout (visualization : Val) : List (String × Val) :=
  if truthy (getF visualization "plotlyLayout") then
    mergeSpread (defaultLayout visualization) (toFields (getF visualization "plotlyLayout"))
  else defaultLayout visualization

/-! ## VisualizationDisplay.js : repair -/

/-- Whether a `type` value selects the x/y promotion branch
(`=== 'scatter' || === 'bar'`, line 95). -/
def isXY : Val → Bool
  | Val.vStr "scatter" => true
  | Val.vStr "bar" => true
  | _ => false

/-- Whether a `type` value is exactly `'scatter'` (line 105). -/
def isScatter : Val → Bool
  | Val.vStr "scatter" => true
  | _ => false

/-- Promote a truthy non-array field to a one-element array
(lines 96–101). -/
def promoteF (k : String) (f : List (String × Val)) : List (String × Val) :=
  if truthy (getFl f k) && !isArr (getFl f k) then setFl f k (Val.vArr [getFl f k]) else f

/-- Lines 90–92: default a falsy `type` to `'scatter'`. -/
def fixType (f : List (String × Val)) : List (String × Val) :=
  if truthy (getFl f "type") then f else setFl f "type" (Val.vStr "scatter")

/-- Lines 95–102: for `scatter`/`bar` traces promote non-array `x` and
`y` to one-element arrays. -/
def fixXY (f : List (String × Val)) : List (String × Val) :=
  if isXY (getFl f "type") then promoteF "y" (promoteF "x" f) else f

/-- Lines 105–107: give `scatter` traces without a truthy `mode` the
mode `'lines+markers'`. -/
def fixMode (f : List (String × Val)) : List (String × Val) :=
  if isScatter (getFl f "type") && !truthy (getFl f "mode") then
    setFl f "mode" (Val.vStr "lines+markers")
  else f

/-- The three repairs of the `map` body of `sanitizePlotlyData`
(lines 85–109) in order. -/
def sanitizeFields (f : List (String × Val)) : List (String × Val) :=
  fixMode (fixXY (fixType f))

/-- The `map` body of `sanitizePlotlyData` (lines 85–109): copy the
trace (`\x7b...trace\x7d`) and apply the three repairs in order. -/
def sanitizeTrace (t : Val) : Val :=
  Val.vObj (sanitizeFields (toFields t))

/-- `sanitizePlotlyData` (lines 79–111): `null` for non-array input,
otherwise the traces repaired element-wise. -/
def sanitizePlotlyData (data : Val) : Option (List Val) :=
  match data with
  | Val.vArr xs => some (xs.map sanitizeTrace)
  | _ => none

/-! ## VisualizationDisplay.js : rendering dispatch -/

/-- Outcome of the Plotly branch of the component (lines 575–648). -/
inductive RenderResult where
  | errMissing : RenderResult
  | errInvalid : RenderResult
  | errSanitize : RenderResult
  | ok : List Val → List (String × Val) → RenderResult

/-- The Plotly branch (lines 575–648): falsy `plotlyData` is a missing-data
error; data failing `isValidPlotlyData` is an invalid-structure error;
otherwise the sanitized data is rendered with the merged layout. -/
def plotlyRender (visualization : Val) : RenderResult :=
  if !truthy (getF visualization "plotlyData") then RenderResult.errMissing
  else if !isValidPlotlyData (getF visualization "plotlyData") then RenderResult.errInvalid
  else
    match sanitizePlotlyData (getF visualization "plotlyData") with
    | none => RenderResult.errSanitize
    | some ds => RenderResult.ok ds (getPlotlyLayout visualization)

/-- What the component renders (lines 554–657). -/
inductive View where
  | noViz : View
  | errorView : Val → View
  | plotlyView : RenderResult → View
  | d3View : Val → Val → View

/-- The strict comparison `visualization.type === 'plotly'` (line 575). -/
def isPlotlyType : Val → Bool
  | Val.vStr "plotly" => true
  | _ => false

/-- The component body: no visualization, explicit error, the Plotly
branch when `type === 'plotly'`, otherwise the D3 branch, which passes
the visualization's `type` and raw `data` rows to the D3 renderers
unchanged. -/
def renderVisualizationDisplay (visualization : Val) : View :=
  if !truthy visualization then View.noViz
  else if truthy (getF visualization "error") then View.errorView (getF visualization "error")
  else if isPlotlyType (getF visualization "type") then
    View.plotlyView (plotlyRender visualization)
  else View.d3View (getF visualization "type") (getF visualization "data")

/-! ## App.js : retry event wiring and editor updates -/

/-- The event name dispatched by `handleRetryVisualization`
(`VisualizationDisplay.js` line 142). -/
def retryDispatchName : String := "visualization-updated"

/-- The event name `App.js` subscribes to (line 25). -/
def appListenName : String := "visualization-update"

/-- The app's visualization state: the response object holding the
`visualizations` array, and the selected index. -/
structure AppState where
  visualizationData : Val
  selectedVisualization : Nat

/-- `handleRetryUpdate` (`App.js` lines 18–23): on an event whose detail
has a truthy `visualizations` field, replace the data and reset the
selection to 0. -/
def handleRetryUpdate (st : AppState) (detail : Val) : AppState :=
  if truthy detail && truthy (getF detail "visualizations") then
    { visualizationData := detail, selectedVisualization := 0 }
  else st

/-- Delivery of a window event to the app: the handler runs only when
the dispatched name equals the subscribed name. -/
def dispatchToApp (st : AppState) (name : String) (detail : Val) : AppState :=
  if name = appListenName then handleRetryUpdate st detail else st

/-- `.length > 0` on a JavaScript value: arrays and strings have a
`length`; on anything else the comparison is false. -/
def lenPos : Val → Bool
  | Val.vArr xs => !xs.isEmpty
  | Val.vStr s => !s.isEmpty
  | _ => false

/-- The success branch of `handleRetryVisualization`
(`VisualizationDisplay.js` lines 136–147): when the response has a
non-empty `visualizations` array the Plotly error is cleared and the
event `retryDispatchName` is dispatched with the response as detail;
otherwise an error message is set and no event is dispatched.
Returns the resulting Plotly error and app state. -/
def retryOutcome (responseData : Val) (st : AppState) : Option String × AppState :=
  if truthy (getF responseData "visualizations") && lenPos (getF responseData "visualizations") then
    (none, dispatchToApp st retryDispatchName responseData)
  else (some "Retry failed to generate valid visualizations", st)

/-- `handleEditorUpdate` (`App.js` lines 44–60): guard on truthy data and
`visualizations`; copy the data and the array; replace the selected
entry by `\x7b...old, ...updates\x7d`. -/
def handleEditorUpdate (vd : Val) (sel : Nat) (updates : Val) : Val :=
  if truthy vd && truthy (getF vd "visualizations") then
    match getF vd "visualizations" with
    | Val.vArr vizs =>
        Val.vObj (mergeSpread (toFields vd)
          [("visualizations",
            Val.vArr (vizs.set sel
              (Val.vObj (mergeSpread (toFields (vizs.getD sel Val.vUndef))
                                     (toFields updates)))))])
    | _ => vd
  else vd

/-! ## LoggingService.js -/

/-- One queued client log entry. -/
structure LogEntry where
  level : String
  message : String
  retries : Nat
deriving DecidableEq

/-- `maxRetries` (`LoggingService.js` line 7). -/
def maxRetries : Nat := 3

/-- `queueLog` (lines 45–53): messages about failed log delivery are
dropped to avoid loops; every other message is appended with a retry
count of 0. -/
def queueLog (level message : String) (q : List LogEntry) : List LogEntry :=
  if (message.splitOn "Error sending log to server").length > 1 then q
  else q ++ [⟨level, message, 0⟩]

/-- An overridden console method (lines 23–43): it always forwards its
arguments to the original console method (first component) and enqueues
the space-joined message. It is a total function: a log delivery
failure is handled inside `processQueue` and never reaches the caller. -/
def consoleOverride (level : String) (args : List String) (q : List LogEntry) :
    List String × List LogEntry :=
  (args, queueLog level (String.intercalate " " args) q)

/-- One `processQueue` pass (lines 55–86) with the given send outcome:
on success the head entry is removed; on failure its retry count is
incremented and it is removed once the count reaches `maxRetries`. -/
def processStep (q : List LogEntry) (sendOk : Bool) : List LogEntry :=
  match q with
  | [] => []
  | e :: rest =>
      if sendOk then rest
      else if maxRetries ≤ e.retries + 1 then rest
      else { e with retries := e.retries + 1 } :: rest

/-! ## ModelSelector.js -/

/-- The component state after `fetchModels` resolves. -/
structure MSResult where
  models : Val
  error : Option String
  autoSelect : Option Val

/-- `models[0]`. -/
def firstElem : Val → Val
  | Val.vArr (x :: _) => x
  | _ => Val.vUndef

/-- `fetchModels` success path (`ModelSelector.js` lines 13–22): when
`response.data` and `response.data.models` are truthy, the models are
stored without touching the error state, and the first model's name is
auto-selected only when no model is selected and the list is non-empty;
otherwise the error is set to "No models found". -/
def fetchModelsResult (responseData : Val) (selectedModel : Val) : MSResult :=
  if truthy responseData && truthy (getF responseData "models") then
    { models := getF responseData "models"
      error := none
      autoSelect :=
        if !truthy selectedModel && lenPos (getF responseData "models") then
          some (getF (firstElem (getF responseData "models")) "name")
        else none }
  else { models := Val.vArr [], error := some "No models found", autoSelect := none }

/-- What the component renders once loading is done (lines 51–97). -/
inductive MSView where
  | errorPanel : String → MSView
  | selector : Nat → Bool → MSView

/-- `models.length` as rendered. -/
def valLen : Val → Nat
  | Val.vArr xs => xs.length
  | _ => 0

/-- The render of `ModelSelector` after loading: an error panel when an
error is set, otherwise the selector with the model count and, when the
list is empty, the "No models found. Please make sure Ollama is
running." notice flag. -/
def renderModelSelector (r : MSResult) : MSView :=
  match r.error with
  | some m => MSView.errorPanel m
  | none => MSView.selector (valLen r.models) (valLen r.models == 0)

/-! ## Field-list lemmas -/

theorem containsKey_nil (k : String) : containsKey [] k = false := rfl

theorem containsKey_cons (p : String × Val) (f : List (String × Val)) (k : String) :
    containsKey (p :: f) k = (decide (p.1 = k) || containsKey f k) := rfl

theorem getFl_setFl_same (f : List (String × Val)) (k : String) (v : Val) :
    getFl (setFl f k v) k = v := by
  induction f with
  | nil => simp [setFl, getFl]
  | cons p rest ih =>
      by_cases h : p.1 = k
      · simp [setFl, getFl, h]
      · simp [setFl, getFl, h, ih]

theorem getFl_setFl_ne (f : List (String × Val)) (k k' : String) (v : Val) (h : k' ≠ k) :
    getFl (setFl f k v) k' = getFl f k' := by
  have hne : ¬ (k = k') := fun hh => h hh.symm
  induction f with
  | nil => simp [setFl, getFl, hne]
  | cons p rest ih =>
      by_cases hp : p.1 = k
      · simp [setFl, getFl, hp, hne]
      · by_cases hp' : p.1 = k'
        · simp [setFl, getFl, hp, hp', h]
        · simp [setFl, getFl, hp, hp', ih]

theorem getFl_of_not_containsKey (f : List (String × Val)) (k : String)
    (h : containsKey f k = false) : getFl f k = Val.vUndef := by
  induction f with
  | nil => rfl
  | cons p rest ih =>
      rw [containsKey_cons, Bool.or_eq_false_iff] at h
      have hp : ¬ p.1 = k := by simpa using h.1
      simp [getFl, hp, ih h.2]

theorem getFl_append (a b : List (String × Val)) (k : String) :
    getFl (a ++ b) k = if containsKey a k then getFl a k else getFl b k := by
  induction a with
  | nil => simp [containsKey_nil, getFl]
  | cons p rest ih =>
      by_cases h : p.1 = k
      · simp [getFl, containsKey_cons, h]
      · simp [getFl, containsKey_cons, h, ih]

theorem containsKey_map_keys (f : List (String × Val)) (g : String × Val → Val) (k : String) :
    containsKey (f.map fun p => (p.1, g p)) k = containsKey f k := by
  induction f with
  | nil => rfl
  | cons p rest ih => simp [containsKey_cons, ih]

theorem getFl_map_override (a b : List (String × Val)) (k : String)
    (h : containsKey a k = true) :
    getFl (a.map fun p => (p.1, if containsKey b p.1 then getFl b p.1 else p.2)) k
      = if containsKey b k then getFl b k else getFl a k := by
  induction a with
  | nil => simp [containsKey_nil] at h
  | cons p rest ih =>
      by_cases hp : p.1 = k
      · simp [getFl, hp]
      · rw [containsKey_cons] at h
        simp only [hp, decide_eq_true_eq, decide_eq_false hp, Bool.false_or] at h
        simp [getFl, hp, ih h]

theorem getFl_filter_pos (f : List (String × Val)) (P : String → Bool) (k : String)
    (h : P k = true) :
    getFl (f.filter fun p => P p.1) k = getFl f k := by
  induction f with
  | nil => rfl
  | cons p rest ih =>
      by_cases hp : p.1 = k
      · have hPp : P p.1 = true := by rw [hp]; exact h
        simp [List.filter_cons, hPp, h, getFl, hp]
      · cases hPp : P p.1 <;> simp [List.filter_cons, hPp, getFl, hp, ih]

theorem getFl_filter_neg (f : List (String × Val)) (P : String → Bool) (k : String)
    (h : P k = false) :
    getFl (f.filter fun p => P p.1) k = Val.vUndef := by
  induction f with
  | nil => rfl
  | cons p rest ih =>
      by_cases hp : p.1 = k
      · have hPp : P p.1 = false := by rw [hp]; exact h
        simp [List.filter_cons, hPp, ih]
      · cases hPp : P p.1 <;> simp [List.filter_cons, hPp, getFl, hp, ih]

theorem getFl_mergeSpread_right (a b : List (String × Val)) (k : String)
    (h : containsKey b k = true) :
    getFl (mergeSpread a b) k = getFl b k := by
  unfold mergeSpread
  rw [getFl_append]
  by_cases ha : containsKey a k = true
  · rw [if_pos (by rw [containsKey_map_keys]; exact ha), getFl_map_override a b k ha, if_pos h]
  · have ha' : containsKey a k = false := by simpa using ha
    rw [if_neg (by rw [containsKey_map_keys]; simp [ha'])]
    exact getFl_filter_pos b (fun s => !containsKey a s) k (by simp [ha'])

theorem getFl_mergeSpread_left (a b : List (String × Val)) (k : String)
    (h : containsKey b k = false) :
    getFl (mergeSpread a b) k = getFl a k := by
  unfold mergeSpread
  rw [getFl_append]
  by_cases ha : containsKey a k = true
  · rw [if_pos (by rw [containsKey_map_keys]; exact ha), getFl_map_override a b k ha,
        if_neg (by simp [h])]
  · have ha' : containsKey a k = false := by simpa using ha
    rw [if_neg (by rw [containsKey_map_keys]; simp [ha'])]
    rw [getFl_filter_pos b (fun s => !containsKey a s) k (by simp [ha'])]
    rw [getFl_of_not_containsKey b k h, getFl_of_not_containsKey a k ha']

theorem listSet_get?_ne {α : Type _} (l : List α) (i j : Nat) (v : α) (h : j ≠ i) :
    (l.set i v).get? j = l.get? j := by
  induction l generalizing i j with
  | nil => rfl
  | cons hd tl ih =>
      cases i with
      | zero =>
          cases j with
          | zero => exact absurd rfl h
          | succ j => rfl
      | succ i =>
          cases j with
          | zero => rfl
          | succ j => exact ih i j (fun hh => h (by rw [hh]))

theorem listSet_getD_same {α : Type _} (l : List α) (i : Nat) (v d : α) (h : i < l.length) :
    (l.set i v).getD i d = v := by
  induction l generalizing i with
  | nil => simp at h
  | cons hd tl ih =>
      cases i with
      | zero => rfl
      | succ i => exact ih i (by simpa using h)

/-! ## Repair-step invariants -/

/-- A field value that the x/y promotion leaves alone: falsy or already
an array. -/
def okField (v : Val) : Bool :=
  !(truthy v && !isArr v)

theorem promoteF_getFl_ne (k k' : String) (f : List (String × Val)) (h : k' ≠ k) :
    getFl (promoteF k f) k' = getFl f k' := by
  unfold promoteF
  split
  · exact getFl_setFl_ne f k k' _ h
  · rfl

theorem promoteF_ok_self (k : String) (f : List (String × Val)) :
    okField (getFl (promoteF k f) k) = true := by
  unfold promoteF
  by_cases h : (truthy (getFl f k) && !isArr (getFl f k)) = true
  · rw [if_pos h, getFl_setFl_same]
    rfl
  · rw [if_neg h]
    unfold okField
    rw [Bool.eq_false_iff.mpr h]
    rfl

theorem promoteF_noop (k : String) (f : List (String × Val))
    (h : okField (getFl f k) = true) : promoteF k f = f := by
  unfold promoteF
  rw [if_neg]
  intro hc
  unfold okField at h
  rw [hc] at h
  simp at h

theorem fixType_getFl_ne (k : String) (f : List (String × Val)) (h : k ≠ "type") :
    getFl (fixType f) k = getFl f k := by
  unfold fixType
  split
  · rfl
  · exact getFl_setFl_ne f "type" k _ h

theorem fixType_type_truthy (f : List (String × Val)) :
    truthy (getFl (fixType f) "type") = true := by
  unfold fixType
  split
  · assumption
  · rw [getFl_setFl_same]
    rfl

theorem fixXY_getFl_ne (k : String) (f : List (String × Val))
    (hx : k ≠ "x") (hy : k ≠ "y") :
    getFl (fixXY f) k = getFl f k := by
  unfold fixXY
  split
  · rw [promoteF_getFl_ne "y" k _ hy, promoteF_getFl_ne "x" k _ hx]
  · rfl

theorem fixMode_getFl_ne (k : String) (f : List (String × Val)) (h : k ≠ "mode") :
    getFl (fixMode f) k = getFl f k := by
  unfold fixMode
  split
  · exact getFl_setFl_ne f "mode" k _ h
  · rfl

theorem sanitizeFields_type (f : List (String × Val)) :
    getFl (sanitizeFields f) "type" = getFl (fixType f) "type" := by
  unfold sanitizeFields
  rw [fixMode_getFl_ne "type" _ (by decide), fixXY_getFl_ne "type" _ (by decide) (by decide)]

theorem sanitizeFields_type_truthy (f : List (String × Val)) :
    truthy (getFl (sanitizeFields f) "type") = true := by
  rw [sanitizeFields_type]
  exact fixType_type_truthy f

theorem sanitizeFields_ok_x (f : List (String × Val))
    (h : isXY (getFl (sanitizeFields f) "type") = true) :
    okField (getFl (sanitizeFields f) "x") = true := by
  have hty : isXY (getFl (fixType f) "type") = true := by
    rw [← sanitizeFields_type]; exact h
  unfold sanitizeFields
  rw [fixMode_getFl_ne "x" _ (by decide)]
  unfold fixXY
  rw [if_pos hty, promoteF_getFl_ne "y" "x" _ (by decide)]
  exact promoteF_ok_self "x" (fixType f)

theorem sanitizeFields_ok_y (f : List (String × Val))
    (h : isXY (getFl (sanitizeFields f) "type") = true) :
    okField (getFl (sanitizeFields f) "y") = true := by
  have hty : isXY (getFl (fixType f) "type") = true := by
    rw [← sanitizeFields_type]; exact h
  unfold sanitizeFields
  rw [fixMode_getFl_ne "y" _ (by decide)]
  unfold fixXY
  rw [if_pos hty]
  exact promoteF_ok_self "y" (promoteF "x" (fixType f))

theorem sanitizeFields_mode (f : List (String × Val))
    (h : isScatter (getFl (sanitizeFields f) "type") = true) :
    truthy (getFl (sanitizeFields f) "mode") = true := by
  have hty : isScatter (getFl (fixXY (fixType f)) "type") = true := by
    have := sanitizeFields_type f
    unfold sanitizeFields at this
    rw [fixMode_getFl_ne "type" _ (by decide)] at this
    rw [this]
    rw [← sanitizeFields_type]
    exact h
  unfold sanitizeFields fixMode
  by_cases hm : truthy (getFl (fixXY (fixType f)) "mode") = true
  · rw [if_neg (by simp [hm])]
    exact hm
  · have hm' : truthy (getFl (fixXY (fixType f)) "mode") = false := by simpa using hm
    rw [if_pos (by simp [hty, hm']), getFl_setFl_same]
    rfl

theorem sanitizeFields_idem (f : List (String × Val)) :
    sanitizeFields (sanitizeFields f) = sanitizeFields f := by
  have h1 : fixType (sanitizeFields f) = sanitizeFields f := by
    unfold fixType
    rw [if_pos (sanitizeFields_type_truthy f)]
  have h2 : fixXY (sanitizeFields f) = sanitizeFields f := by
    unfold fixXY
    by_cases hxy : isXY (getFl (sanitizeFields f) "type") = true
    · rw [if_pos hxy, promoteF_noop "x" _ (sanitizeFields_ok_x f hxy),
          promoteF_noop "y" _ (sanitizeFields_ok_y f hxy)]
    · rw [if_neg hxy]
  have h3 : fixMode (sanitizeFields f) = sanitizeFields f := by
    unfold fixMode
    by_cases hs : isScatter (getFl (sanitizeFields f) "type") = true
    · rw [if_neg (by simp [sanitizeFields_mode f hs])]
    · rw [if_neg (by simp [Bool.eq_false_iff.mpr hs])]
  show fixMode (fixXY (fixType (sanitizeFields f))) = sanitizeFields f
  rw [h1, h2, h3]

theorem sanitizeTrace_idem (t : Val) :
    sanitizeTrace (sanitizeTrace t) = sanitizeTrace t := by
  show Val.vObj (sanitizeFields (toFields (Val.vObj (sanitizeFields (toFields t)))))
      = Val.vObj (sanitizeFields (toFields t))
  rw [show toFields (Val.vObj (sanitizeFields (toFields t))) = sanitizeFields (toFields t) from rfl,
      sanitizeFields_idem]

theorem sanitizeFields_default_type (f : List (String × Val))
    (h : truthy (getFl f "type") = false) :
    getFl (sanitizeFields f) "type" = Val.vStr "scatter" := by
  rw [sanitizeFields_type]
  unfold fixType
  rw [if_neg (by simp [h]), getFl_setFl_same]

theorem sanitizeFields_noop (f : List (String × Val))
    (h1 : truthy (getFl f "type") = true)
    (h2 : isXY (getFl f "type") = false)
    (h3 : isScatter (getFl f "type") = false) :
    sanitizeFields f = f := by
  unfold sanitizeFields
  have hft : fixType f = f := by
    unfold fixType
    rw [if_pos h1]
  rw [hft]
  have hfxy : fixXY f = f := by
    unfold fixXY
    rw [if_neg (by simp [h2])]
  rw [hfxy]
  unfold fixMode
  rw [if_neg (by simp [h3])]

theorem plotlyRender_errInvalid_of_invalid_mem (viz : Val) (traces : List Val) (t : Val)
    (h1 : getF viz "plotlyData" = Val.vArr traces) (h2 : t ∈ traces)
    (hv : validTrace t = false) :
    plotlyRender viz = RenderResult.errInvalid := by
  have hall : traces.all validTrace = false := by
    rw [Bool.eq_false_iff]
    intro hc
    rw [List.all_eq_true] at hc
    exact absurd (hc t h2) (by simp [hv])
  have hvalid : isValidPlotlyData (Val.vArr traces) = false := by
    unfold isValidPlotlyData
    rw [if_neg (by simp [truthy])]
    show (!traces.isEmpty && traces.all validTrace) = false
    rw [hall, Bool.and_false]
  unfold plotlyRender
  rw [h1, if_neg (by simp [truthy]), if_pos (by simp [hvalid])]

/-! ## Claim theorems -/

/-- The response of a successful manual retry: a non-empty
visualizations array. -/
def c1RetryResponse : Val :=
  Val.vObj [("visualizations", Val.vArr [Val.vObj [("type", Val.vStr "plotly")]])]

/-- An app state with a non-zero selection, to observe that the retry
neither replaces the data nor resets the selection. -/
def c1AppState : AppState :=
  { visualizationData := Val.vNull, selectedVisualization := 3 }

/-- C1: the manual retry success path dispatches the window event named
by retryDispatchName, but the app subscribes to appListenName; the two
names differ, so the dispatch never reaches the app handler and a retry
response with a non-empty visualizations array leaves the app
visualization state and the selection unchanged, contradicting the
claim that the retry output is delivered to the app state. -/
theorem c1_retry_never_delivered :
    retryDispatchName ≠ appListenName ∧
    (∀ (st : AppState) (detail : Val), dispatchToApp st retryDispatchName detail = st) ∧
    retryOutcome c1RetryResponse c1AppState = (none, c1AppState) := by
  refine ⟨by decide, ?_, ?_⟩
  · intro st detail
    unfold dispatchToApp
    rw [if_neg (by decide)]
  · rfl

/-- A Pie candidate whose values field is the scalar 5 and whose labels
field is a valid array. -/
def c2PieTrace : Val :=
  Val.vObj [("type", Val.vStr "pie"), ("values", Val.vNum 5),
            ("labels", Val.vArr [Val.vStr "A"])]

/-- A Plotly visualization carrying only that Pie candidate. -/
def c2Viz : Val :=
  Val.vObj [("type", Val.vStr "plotly"), ("plotlyData", Val.vArr [c2PieTrace])]

/-- C2 counterexample: the Pie candidate with scalar values 5 and a
valid labels array is rejected by the pipeline (the validator runs
before the repair step and requires values to already be an array), and
the repair step leaves the scalar values untouched instead of promoting
it to a one-element array. -/
theorem c2_counterexample :
    plotlyRender c2Viz = RenderResult.errInvalid ∧
    getF (sanitizeTrace c2PieTrace) "values" = Val.vNum 5 := by
  exact ⟨rfl, rfl⟩

/-- C2 amended: every Pie candidate trace whose values field is not an
array is rejected by the validation/repair pipeline, even when labels
is a valid array; the scalar-to-array promotion applies only to the x/y
fields of bar/scatter traces, and the repair step leaves the values
field of a pie trace unchanged. -/
theorem c2_amended (viz : Val) (traces : List Val) (t : Val)
    (h1 : getF viz "plotlyData" = Val.vArr traces) (h2 : t ∈ traces)
    (h3 : getF t "type" = Val.vStr "pie") (h4 : isArr (getF t "values") = false) :
    plotlyRender viz = RenderResult.errInvalid ∧
    getF (sanitizeTrace t) "values" = getF t "values" := by
  have hh : getFl (toFields t) "type" = Val.vStr "pie" := h3
  constructor
  · apply plotlyRender_errInvalid_of_invalid_mem viz traces t h1 h2
    unfold validTrace
    rw [h3]
    show (isArr (getF t "values") && isArr (getF t "labels")) = false
    rw [h4, Bool.false_and]
  · show getFl (sanitizeFields (toFields t)) "values" = getFl (toFields t) "values"
    rw [sanitizeFields_noop (toFields t) (by rw [hh]; rfl) (by rw [hh]; rfl) (by rw [hh]; rfl)]

/-- A witness pie trace with scalar values and labels entirely absent. -/
def c2PieTraceB : Val :=
  Val.vObj [("type", Val.vStr "pie"), ("values", Val.vNum 5)]

/-- The visualization carrying that trace. -/
def c2VizB : Val :=
  Val.vObj [("type", Val.vStr "plotly"), ("plotlyData", Val.vArr [c2PieTraceB])]

/-- C2 witness: the amended statement evaluated on the labels-absent
pie candidate with scalar values. -/
theorem c2_amended_witness :
    plotlyRender c2VizB = RenderResult.errInvalid ∧
    getF (sanitizeTrace c2PieTraceB) "values" = getF c2PieTraceB "values" :=
  c2_amended c2VizB [c2PieTraceB] c2PieTraceB rfl (List.mem_singleton.mpr rfl) rfl rfl

/-- A bar candidate whose x and y are arrays of different lengths. -/
def c3Trace : Val :=
  Val.vObj [("type", Val.vStr "bar"),
            ("x", Val.vArr [Val.vNum 1, Val.vNum 2]),
            ("y", Val.vArr [Val.vNum 3])]

/-- The Plotly visualization carrying that candidate. -/
def c3Viz : Val :=
  Val.vObj [("type", Val.vStr "plotly"), ("plotlyData", Val.vArr [c3Trace])]

/-- C3 counterexample: a bar candidate with x of length 2 and y of
length 1 passes the validator and is returned as a renderable chart
specification, contradicting the claim that such candidates are
rejected. -/
theorem c3_counterexample :
    isValidPlotlyData (Val.vArr [c3Trace]) = true ∧
    plotlyRender c3Viz = RenderResult.ok [c3Trace] (defaultLayout c3Viz) := by
  exact ⟨rfl, rfl⟩

/-- C3 amended: for bar and scatter candidate traces the validator
checks only that the x and y fields are both arrays; it never compares
their lengths, so paired arrays of different lengths are accepted. -/
theorem c3_amended (t : Val)
    (h : getF t "type" = Val.vStr "bar" ∨ getF t "type" = Val.vStr "scatter") :
    validTrace t = (isArr (getF t "x") && isArr (getF t "y")) := by
  rcases h with h | h <;>
    · unfold validTrace
      rw [h]
      rfl

/-- A scatter trace with mismatched array lengths for the witness. -/
def c3TraceB : Val :=
  Val.vObj [("type", Val.vStr "scatter"),
            ("x", Val.vArr [Val.vNum 1, Val.vNum 2, Val.vNum 3]),
            ("y", Val.vArr [Val.vNum 4])]

/-- C3 witness: the amended statement evaluated on a scatter candidate
with x of length 3 and y of length 1: it is accepted. -/
theorem c3_amended_witness :
    validTrace c3TraceB = (isArr (getF c3TraceB "x") && isArr (getF c3TraceB "y")) :=
  c3_amended c3TraceB (Or.inr rfl)

/-- A candidate trace without a type field. -/
def c4Trace : Val :=
  Val.vObj [("x", Val.vArr [Val.vNum 1]), ("y", Val.vArr [Val.vNum 2])]

/-- The Plotly visualization carrying the type-less candidate. -/
def c4Viz : Val :=
  Val.vObj [("type", Val.vStr "plotly"), ("plotlyData", Val.vArr [c4Trace])]

/-- C4 counterexample: a generic-plot candidate without a type field is
rejected by the component (the validator runs before the repair step
and fails on the missing type), so the pipeline does not default it and
proceed as the claim states. -/
theorem c4_counterexample :
    renderVisualizationDisplay c4Viz = View.plotlyView RenderResult.errInvalid := rfl

/-- C4 amended: the repair step alone defaults a missing type to
scatter, but on the Plotly payload path validation precedes repair and
rejects every candidate lacking a truthy type, so the defaulting never
lets a type-less candidate proceed; and the direct-rendering (D3) path
receives the visualization type and raw data rows unchanged, so the
defaulting is never applied there. -/
theorem c4_amended :
    (∀ t : Val, truthy (getF t "type") = false →
      getF (sanitizeTrace t) "type" = Val.vStr "scatter") ∧
    (∀ (viz : Val) (traces : List Val) (t : Val),
      getF viz "plotlyData" = Val.vArr traces → t ∈ traces →
      truthy (getF t "type") = false →
      plotlyRender viz = RenderResult.errInvalid) ∧
    (∀ viz : Val, truthy viz = true → truthy (getF viz "error") = false →
      isPlotlyType (getF viz "type") = false →
      renderVisualizationDisplay viz = View.d3View (getF viz "type") (getF viz "data")) := by
  refine ⟨?_, ?_, ?_⟩
  · intro t h
    exact sanitizeFields_default_type (toFields t) h
  · intro viz traces t h1 h2 h3
    apply plotlyRender_errInvalid_of_invalid_mem viz traces t h1 h2
    unfold validTrace
    rw [if_pos (by simp [h3])]
  · intro viz h1 h2 h3
    unfold renderVisualizationDisplay
    rw [if_neg (by simp [h1]), if_neg (by simp [h2]), if_neg (by simp [h3])]

/-- C4 witness: the amended statement evaluated on the concrete
type-less candidate and on a concrete D3 bar visualization. -/
theorem c4_amended_witness :
    getF (sanitizeTrace c4Trace) "type" = Val.vStr "scatter" ∧
    plotlyRender c4Viz = RenderResult.errInvalid ∧
    renderVisualizationDisplay (Val.vObj [("type", Val.vStr "bar"), ("data", Val.vArr [])])
      = View.d3View (Val.vStr "bar") (Val.vArr []) :=
  ⟨c4_amended.1 c4Trace rfl,
   c4_amended.2.1 c4Viz [c4Trace] c4Trace rfl (List.mem_singleton.mpr rfl) rfl,
   c4_amended.2.2 (Val.vObj [("type", Val.vStr "bar"), ("data", Val.vArr [])]) rfl rfl rfl⟩

/-- C5: for every visualization whose plotlyLayout is an object, the
layout produced for rendering gives every key present in plotlyLayout
its explicit value, and every key absent from plotlyLayout falls back
to the default layout value (title, autosize, margin): defaults are
merged under, never over, explicit values. -/
theorem c5_layout_defaults_under (viz : Val) (pl : List (String × Val)) (k : String)
    (h : getF viz "plotlyLayout" = Val.vObj pl) :
    (containsKey pl k = true → getFl (getPlotlyLayout viz) k = getFl pl k) ∧
    (containsKey pl k = false → getFl (getPlotlyLayout viz) k = getFl (defaultLayout viz) k) := by
  have htr : truthy (getF viz "plotlyLayout") = true := by rw [h]; rfl
  unfold getPlotlyLayout
  rw [if_pos htr, h]
  constructor
  · intro hk
    exact getFl_mergeSpread_right (defaultLayout viz) pl k hk
  · intro hk
    exact getFl_mergeSpread_left (defaultLayout viz) pl k hk

/-- A visualization with an explicit title and an explicit autosize in
its plotlyLayout. -/
def c5Viz : Val :=
  Val.vObj [("title", Val.vStr "T"),
            ("plotlyLayout", Val.vObj [("autosize", Val.vBool false)])]

/-- C5 witness: the explicit autosize value false survives the merge
and the missing title key falls back to the default. -/
theorem c5_witness :
    getFl (getPlotlyLayout c5Viz) "autosize" = Val.vBool false ∧
    getFl (getPlotlyLayout c5Viz) "title" = Val.vStr "T" := by
  constructor
  · have h := (c5_layout_defaults_under c5Viz [("autosize", Val.vBool false)] "autosize" rfl).1 rfl
    rw [h]
    rfl
  · have h := (c5_layout_defaults_under c5Viz [("autosize", Val.vBool false)] "title" rfl).2 rfl
    rw [h]
    rfl

/-- C6: the repair step is idempotent: feeding the output of
sanitizePlotlyData back in as a candidate array leaves it unchanged. -/
theorem c6_sanitize_idempotent (xs : List Val) :
    (sanitizePlotlyData (Val.vArr xs)).bind (fun ys => sanitizePlotlyData (Val.vArr ys))
      = sanitizePlotlyData (Val.vArr xs) := by
  show some ((xs.map sanitizeTrace).map sanitizeTrace) = some (xs.map sanitizeTrace)
  congr 1
  induction xs with
  | nil => rfl
  | cons t ts ih => simp [sanitizeTrace_idem, ih]

/-- C7: the console overrides always forward the exact arguments to the
original console method and are total (a delivery failure is absorbed
inside the queue processor); one queue-processing pass never grows the
queue; and an entry with a fresh retry count is removed after exactly
maxRetries = 3 consecutive failed delivery attempts, so a persistently
unreachable log server cannot keep an entry in the queue. -/
theorem c7_logging_bounded :
    (∀ (level : String) (args : List String) (q : List LogEntry),
      (consoleOverride level args q).1 = args) ∧
    (∀ (q : List LogEntry) (sendOk : Bool), (processStep q sendOk).length ≤ q.length) ∧
    (∀ (e : LogEntry) (rest : List LogEntry), e.retries = 0 →
      processStep (processStep (processStep (e :: rest) false) false) false = rest) := by
  refine ⟨fun _ _ _ => rfl, ?_, ?_⟩
  · intro q sendOk
    cases q with
    | nil => exact Nat.le_refl _
    | cons e rest =>
        cases sendOk with
        | true =>
            show rest.length ≤ (e :: rest).length
            exact Nat.le_succ _
        | false =>
            show (if maxRetries ≤ e.retries + 1 then rest
                  else { e with retries := e.retries + 1 } :: rest).length ≤ (e :: rest).length
            by_cases h : maxRetries ≤ e.retries + 1
            · rw [if_pos h]
              exact Nat.le_succ _
            · rw [if_neg h]
              exact Nat.le_refl _
  · intro e rest h0
    obtain ⟨lvl, msg, r⟩ := e
    have hr : r = 0 := h0
    subst hr
    rfl

/-- C7 witness: a single fresh entry against a server that always fails
is gone after three passes. -/
theorem c7_witness :
    processStep (processStep (processStep ([⟨"INFO", "m", 0⟩] : List LogEntry) false) false) false
      = [] :=
  c7_logging_bounded.2.2 ⟨"INFO", "m", 0⟩ [] rfl

/-- C8: when the models endpoint responds with a models field holding
an empty list, the fetch takes the success branch: no error is set, no
model is auto-selected, the empty list is stored, and the component
renders the selector with the no-models notice instead of an error
panel. -/
theorem c8_empty_models_graceful (resp sel : Val)
    (h1 : truthy resp = true) (h2 : getF resp "models" = Val.vArr []) :
    (fetchModelsResult resp sel).error = none ∧
    (fetchModelsResult resp sel).autoSelect = none ∧
    (fetchModelsResult resp sel).models = Val.vArr [] ∧
    renderModelSelector (fetchModelsResult resp sel) = MSView.selector 0 true := by
  have hc : (truthy resp && truthy (getF resp "models")) = true := by rw [h1, h2]; rfl
  have hr : fetchModelsResult resp sel =
      { models := Val.vArr [], error := none, autoSelect := none } := by
    unfold fetchModelsResult
    rw [if_pos hc, h2]
    simp [lenPos]
  rw [hr]
  exact ⟨rfl, rfl, rfl, rfl⟩

/-- A response whose models field is the empty array. -/
def c8Resp : Val := Val.vObj [("models", Val.vArr [])]

/-- C8 witness: the theorem evaluated on the concrete empty-models
response with no model selected. -/
theorem c8_witness :
    (fetchModelsResult c8Resp Val.vUndef).error = none ∧
    (fetchModelsResult c8Resp Val.vUndef).autoSelect = none ∧
    (fetchModelsResult c8Resp Val.vUndef).models = Val.vArr [] ∧
    renderModelSelector (fetchModelsResult c8Resp Val.vUndef) = MSView.selector 0 true :=
  c8_empty_models_graceful c8Resp Val.vUndef rfl rfl

/-- C9: an editor update rewrites only the selected visualization: the
updated array has the same length, every other index holds the exact
previous object, and every field of the selected visualization that the
update does not name keeps its previous value. -/
theorem c9_editor_update_frame (vd : Val) (vizs : List Val) (sel : Nat) (updates : Val)
    (h1 : truthy vd = true) (h2 : getF vd "visualizations" = Val.vArr vizs)
    (h3 : sel < vizs.length) :
    ∃ newVizs : List Val,
      getF (handleEditorUpdate vd sel updates) "visualizations" = Val.vArr newVizs ∧
      newVizs.length = vizs.length ∧
      (∀ j : Nat, j ≠ sel → newVizs.get? j = vizs.get? j) ∧
      (∀ key : String, containsKey (toFields updates) key = false →
        getF (newVizs.getD sel Val.vUndef) key = getF (vizs.getD sel Val.vUndef) key) := by
  refine ⟨vizs.set sel
    (Val.vObj (mergeSpread (toFields (vizs.getD sel Val.vUndef)) (toFields updates))),
    ?_, ?_, ?_, ?_⟩
  · unfold handleEditorUpdate
    rw [if_pos (show (truthy vd && truthy (getF vd "visualizations")) = true by rw [h1, h2]; rfl)]
    rw [h2]
    show getFl (mergeSpread (toFields vd)
      [("visualizations", Val.vArr (vizs.set sel
        (Val.vObj (mergeSpread (toFields (vizs.getD sel Val.vUndef)) (toFields updates)))))])
      "visualizations"
      = Val.vArr (vizs.set sel
        (Val.vObj (mergeSpread (toFields (vizs.getD sel Val.vUndef)) (toFields updates))))
    generalize Val.vArr (vizs.set sel
      (Val.vObj (mergeSpread (toFields (vizs.getD sel Val.vUndef)) (toFields updates)))) = X
    rw [getFl_mergeSpread_right (toFields vd) [("visualizations", X)] "visualizations" (by rfl)]
    rfl
  · exact List.length_set vizs sel _
  · intro j hj
    exact listSet_get?_ne vizs sel j _ hj
  · intro key hk
    rw [listSet_getD_same vizs sel _ Val.vUndef h3]
    show getFl (mergeSpread (toFields (vizs.getD sel Val.vUndef)) (toFields updates)) key = _
    exact getFl_mergeSpread_left _ _ key hk

/-- First stored visualization for the C9 witness. -/
def c9Viz0 : Val := Val.vObj [("a", Val.vNum 1), ("b", Val.vNum 2)]

/-- Second stored visualization for the C9 witness. -/
def c9Viz1 : Val := Val.vObj [("c", Val.vNum 3)]

/-- App data holding the two visualizations. -/
def c9Vd : Val := Val.vObj [("visualizations", Val.vArr [c9Viz0, c9Viz1])]

/-- An editor update naming only the field a. -/
def c9Updates : Val := Val.vObj [("a", Val.vNum 9)]

/-- C9 witness: the frame property evaluated at index 0 of the concrete
two-element state. -/
theorem c9_witness :
    ∃ newVizs : List Val,
      getF (handleEditorUpdate c9Vd 0 c9Updates) "visualizations" = Val.vArr newVizs ∧
      newVizs.length = [c9Viz0, c9Viz1].length ∧
      (∀ j : Nat, j ≠ 0 → newVizs.get? j = [c9Viz0, c9Viz1].get? j) ∧
      (∀ key : String, containsKey (toFields c9Updates) key = false →
        getF (newVizs.getD 0 Val.vUndef) key = getF ([c9Viz0, c9Viz1].getD 0 Val.vUndef) key) :=
  c9_editor_update_frame c9Vd [c9Viz0, c9Viz1] 0 c9Updates rfl rfl (by decide)

/-- C10: sanitizePlotlyData is total and shape-preserving: it returns
none exactly for non-array input; on an array it returns a list of the
same length in which every trace has a truthy type; and a trace whose
type was falsy gets the type scatter. -/
theorem c10_sanitize_total_shape :
    (∀ v : Val, sanitizePlotlyData v = none ↔ isArr v = false) ∧
    (∀ xs ys : List Val, sanitizePlotlyData (Val.vArr xs) = some ys →
      ys.length = xs.length ∧ ∀ t ∈ ys, truthy (getF t "type") = true) ∧
    (∀ t : Val, truthy (getF t "type") = false →
      getF (sanitizeTrace t) "type" = Val.vStr "scatter") := by
  refine ⟨?_, ?_, ?_⟩
  · intro v
    cases v <;> simp [sanitizePlotlyData, isArr]
  · intro xs ys h
    simp only [sanitizePlotlyData] at h
    obtain rfl : xs.map sanitizeTrace = ys := Option.some_inj.mp h
    constructor
    · exact List.length_map xs sanitizeTrace
    · intro t ht
      rw [List.mem_map] at ht
      obtain ⟨u, hu, rfl⟩ := ht
      show truthy (getFl (sanitizeFields (toFields u)) "type") = true
      exact sanitizeFields_type_truthy (toFields u)
  · intro t h
    exact sanitizeFields_default_type (toFields t) h

/-- C10 witness: the three parts evaluated on a number, a singleton
array and the empty object. -/
theorem c10_witness :
    sanitizePlotlyData (Val.vNum 7) = none ∧
    (([Val.vObj []].map sanitizeTrace).length = [Val.vObj []].length ∧
      ∀ t ∈ [Val.vObj []].map sanitizeTrace, truthy (getF t "type") = true) ∧
    getF (sanitizeTrace (Val.vObj [])) "type" = Val.vStr "scatter" :=
  ⟨(c10_sanitize_total_shape.1 (Val.vNum 7)).mpr rfl,
   c10_sanitize_total_shape.2.1 [Val.vObj []] ([Val.vObj []].map sanitizeTrace) rfl,
   c10_sanitize_total_shape.2.2 (Val.vObj []) rfl⟩
